import Mathlib

/-!
Verification of the staged build-regeneration driver of
`bootstrap/command.go` (package `bootstrap`).

The Go file is shallowly embedded: `RunBlueprint` becomes `runBlueprint`,
a pure function from the caller's arguments (`Args`) and the behaviour of
the external collaborators (`Env`: the dependency-graph engine's phase
results and the success of each I/O step) to a trace of observable events
(`Event`) together with a run result (`RunResult`).

Go's `defer`/`os.Exit` semantics are modelled explicitly: deferred actions
are accumulated in a LIFO list and appended to the trace on every `return`
of `RunBlueprint`, while `fatalf`/`fatalErrors` (which call `os.Exit(1)`)
terminate without running the deferred actions.
-/

/-- The two operating stages of the driver (declared elsewhere in the
`bootstrap` package; the two values used by `command.go`). -/
inductive Stage where
  | StageMain
  | StagePrimary
deriving DecidableEq

/-- Modelled from the spec: the stop-before checkpoint selector, "an
optional capability the caller's configuration may expose, naming a phase
boundary (before preparing build actions, before writing the build file)".
The constant declarations live outside `command.go`; their two values are
exactly the ones `RunBlueprint` compares against. -/
inductive StopBefore where
  | stopBeforePrepareBuildActions
  | stopBeforeWriteNinja
deriving DecidableEq

/-- Where `ctx.WriteBuildFile` is directed: the 16 MiB buffered output
file, or `ioutil.Discard`. -/
inductive Sink where
  | bufferedFile
  | discard
deriving DecidableEq

/-- The structured error categories distinguished by `fatalErrors`:
`*blueprint.BlueprintError`, `*blueprint.ModuleError`,
`*blueprint.PropertyError`, and any other error. -/
inductive BlueprintErr where
  | blueprintError (msg : String)
  | moduleError (msg : String)
  | propertyError (msg : String)
  | otherError (msg : String)
deriving DecidableEq

/-- `PrimaryBuilderInvocation`: inputs, outputs and argument list of one
regeneration command. -/
structure PrimaryBuilderInvocation where
  inputs : List String
  outputs : List String
  args : List String
deriving DecidableEq

/-- The `Args` struct of `command.go`. Go's nil-vs-non-nil distinction on
the `PrimaryBuilderInvocations` slice is modelled with `Option`
(`none` = nil slice, `some l` = non-nil slice with elements `l`). -/
structure Args where
  outFile : String
  subninjas : List String
  globFile : String
  globListDir : String
  cpuprofile : String
  memprofile : String
  delveListen : String
  delvePath : String
  traceFile : String
  runGoTests : Bool
  useValidations : Bool
  noGC : Bool
  emptyNinjaFile : Bool
  moduleListFile : String
  topFile : String
  generatingPrimaryBuilder : Bool
  primaryBuilderInvocations : Option (List PrimaryBuilderInvocation)
deriving DecidableEq

/-- The `Config` value assembled by `RunBlueprint` (the fields set at its
construction site in `command.go`). -/
structure Config where
  stage : Stage
  topLevelBlueprintsFile : String
  subninjas : List String
  globListDir : String
  runGoTests : Bool
  useValidations : Bool
  primaryBuilderInvocations : List PrimaryBuilderInvocation
deriving DecidableEq

/-- Behaviour of the external collaborators consumed by `RunBlueprint`:
the context's source directory, the result of each engine phase, the
optional checkpoint selector, and whether each I/O step succeeds. -/
structure Env where
  srcDirCtx : String
  cpuprofileCreateOk : Bool
  traceCreateOk : Bool
  listModulePaths : Except String (List String)
  parseFileList : List String × List BlueprintErr
  resolveDependencies : List String × List BlueprintErr
  prepareBuildActions : List String × List BlueprintErr
  stopBefore : Option StopBefore
  buildDir : String
  emptyWriteOk : Bool
  openOk : Bool
  writeBuildFileOk : Bool
  flushOk : Bool
  closeOk : Bool
  removeAbandonedFilesUnder : Option Bool
  memprofileCreateOk : Bool

/-- Observable events of one run, in program order. -/
inductive Event where
  | setGOMAXPROCS
  | disableGC
  | createFile (path : String)
  | closeFile (path : String)
  | startCPUProfile
  | stopCPUProfile
  | startTrace
  | stopTrace
  | setModuleListFile (path : String)
  | listFiles (dir : String)
  | registerAll (cfg : Config)
  | parseFiles
  | resolveDependencies
  | prepareBuildActions
  | writeEmptyFile (path : String)
  | openOutFile (path : String)
  | newBufWriter (size : Nat)
  | writeGlobsFile (dir : String)
  | writeBuildFile (out : Sink)
  | flushBuf
  | closeOutFile
  | removeAbandonedFiles
  | writeHeapProfile
  | print (line : String)
  | exitProcess (code : Nat)
deriving DecidableEq

/-- How one run ends: a normal return carrying the ninja dependency list
(the process goes on to exit 0), or `os.Exit` with a code. -/
inductive RunResult where
  | returned (deps : List String)
  | exited (code : Nat)
deriving DecidableEq

/-- Process exit code implied by a run result. -/
def exitCode : RunResult → Nat
  | .returned _ => 0
  | .exited c => c

/-- `filepath.IsAbs` restricted to slash-separated paths. -/
def isAbs (path : String) : Bool :=
  match path.data with
  | [] => false
  | c :: _ => c = '/'


/-- `joinPath` of `command.go` (modelled up to `filepath.Join` path
cleaning). -/
def joinPath (base path : String) : String :=
  if isAbs path then path else base ++ "/" ++ path

/-- The characters before the last slash of a path, or `none` when the
path has no slash. -/
def beforeLastSlash : List Char → Option (List Char)
  | [] => none
  | c :: rest =>
    match beforeLastSlash rest with
    | some tail => some (c :: tail)
    | none => if c = '/' then some [] else none

/-- `filepath.Dir` restricted to slash-separated paths, up to cleaning. -/
def dirOf (p : String) : String :=
  match beforeLastSlash p.data with
  | none => "."
  | some [] => "/"
  | some cs => String.mk cs

/-- The stage computation of `RunBlueprint`: `StageMain`, overridden to
`StagePrimary` when `args.GeneratingPrimaryBuilder` is set. -/
def stageOf (args : Args) : Stage :=
  if args.generatingPrimaryBuilder then Stage.StagePrimary else Stage.StageMain

/-- The `mainNinjaFile` local of `RunBlueprint`:
`filepath.Join("$buildDir", "build.ninja")`. -/
def mainNinjaFile : String := "$buildDir/build.ninja"

/-- `PrimaryBuilderExtraFlags` of `command.go`, translated append by
append. -/
def PrimaryBuilderExtraFlags (args : Args) (ninjaFile : String) : List String :=
  let result : List String := []
  let result := if args.runGoTests then result ++ ["-t"] else result
  let result := result ++ ["-l", args.moduleListFile]
  let result := result ++ ["-o", ninjaFile]
  let result := if args.emptyNinjaFile then result ++ ["--empty-ninja-file"] else result
  let result := if args.delveListen ≠ "" then result ++ ["--delve_listen", args.delveListen] else result
  let result := if args.delvePath ≠ "" then result ++ ["--delve_path", args.delvePath] else result
  result

/-- The `invocations` local of `RunBlueprint`: the caller's list when the
slice is non-nil, otherwise the single synthesized descriptor. -/
def invocationsFor (args : Args) : List PrimaryBuilderInvocation :=
  match args.primaryBuilderInvocations with
  | some invs => invs
  | none =>
    [{ inputs := [args.topFile],
       outputs := [mainNinjaFile],
       args := PrimaryBuilderExtraFlags args mainNinjaFile ++ [args.topFile] }]

/-- The `bootstrapConfig` value constructed by `RunBlueprint`. -/
def bootstrapConfigFor (args : Args) : Config :=
  { stage := stageOf args
    topLevelBlueprintsFile := args.topFile
    subninjas := args.subninjas
    globListDir := args.globListDir
    runGoTests := args.runGoTests
    useValidations := args.useValidations
    primaryBuilderInvocations := invocationsFor args }

/-- `fatalf`: print the message, then `os.Exit(1)` (deferred actions are
not run). -/
def fatalf (evs : List Event) (msg : String) : List Event × RunResult :=
  (evs ++ [Event.print msg, Event.exitProcess 1], RunResult.exited 1)

def red : String := "\x1b[31m"

def unred : String := "\x1b[0m"

/-- The message of a structured error. -/
def errMsg : BlueprintErr → String
  | .blueprintError m => m
  | .moduleError m => m
  | .propertyError m => m
  | .otherError m => m

/-- The switch of `fatalErrors`: the three blueprint error categories are
expected, anything else is internal. -/
def isExpectedError : BlueprintErr → Bool
  | .blueprintError _ => true
  | .moduleError _ => true
  | .propertyError _ => true
  | .otherError _ => false

/-- The line printed by `fatalErrors` for one error. -/
def errorMessageLine (e : BlueprintErr) : String :=
  match e with
  | .blueprintError m => red ++ "error:" ++ unred ++ " " ++ m
  | .moduleError m => red ++ "error:" ++ unred ++ " " ++ m
  | .propertyError m => red ++ "error:" ++ unred ++ " " ++ m
  | .otherError m => red ++ "internal error:" ++ unred ++ " " ++ m

/-- `fatalErrors`: print one line per error, then `os.Exit(1)` (deferred
actions are not run). -/
def fatalErrors (evs : List Event) (errs : List BlueprintErr) : List Event × RunResult :=
  (evs ++ errs.map (fun e => Event.print (errorMessageLine e)) ++ [Event.exitProcess 1],
   RunResult.exited 1)

/-- A `return ninjaDeps` of `RunBlueprint`: the deferred actions run (in
LIFO registration order, which is the order of `defers`). -/
def returnDeps (evs defers : List Event) (deps : List String) : List Event × RunResult :=
  (evs ++ defers, RunResult.returned deps)

/-- Lines 255-264: optional heap snapshot, then the final return. -/
def memProfile (args : Args) (env : Env) (evs defers : List Event)
    (ninjaDeps : List String) : List Event × RunResult :=
  if args.memprofile ≠ "" then
    if env.memprofileCreateOk then
      returnDeps
        (evs ++ [Event.createFile (joinPath env.srcDirCtx args.memprofile),
                 Event.writeHeapProfile])
        (Event.closeFile (joinPath env.srcDirCtx args.memprofile) :: defers)
        ninjaDeps
    else fatalf evs "error opening memprofile: %s"
  else returnDeps evs defers ninjaDeps

/-- Lines 247-253: the abandoned-output reaping pass, when the config
exposes it. -/
def finishRun (args : Args) (env : Env) (evs defers : List Event)
    (ninjaDeps : List String) : List Event × RunResult :=
  match env.removeAbandonedFilesUnder with
  | some ok =>
    if ok then memProfile args env (evs ++ [Event.removeAbandonedFiles]) defers ninjaDeps
    else fatalf (evs ++ [Event.removeAbandonedFiles]) "error removing abandoned files: %s"
  | none => memProfile args env evs defers ninjaDeps

/-- Lines 233-245: `buf.Flush()` when a buffer exists, `f.Close()` when a
file was opened (both exist exactly when the sink is the buffered file). -/
def flushClose (args : Args) (env : Env) (evs defers : List Event)
    (ninjaDeps : List String) (out : Sink) : List Event × RunResult :=
  match out with
  | .bufferedFile =>
    if env.flushOk then
      if env.closeOk then
        finishRun args env (evs ++ [Event.flushBuf, Event.closeOutFile]) defers ninjaDeps
      else fatalf (evs ++ [Event.flushBuf, Event.closeOutFile]) "error closing Ninja file: %s"
    else fatalf (evs ++ [Event.flushBuf]) "error flushing Ninja file contents: %s"
  | .discard => finishRun args env evs defers ninjaDeps

/-- Lines 224-231: the optional glob-watch file, then
`ctx.WriteBuildFile(out)`. -/
def writeOutput (args : Args) (env : Env) (evs defers : List Event)
    (ninjaDeps : List String) (out : Sink) : List Event × RunResult :=
  let evs := if args.globFile ≠ "" then evs ++ [Event.writeGlobsFile args.globListDir] else evs
  let evs := evs ++ [Event.writeBuildFile out]
  if env.writeBuildFileOk then flushClose args env evs defers ninjaDeps out
  else fatalf evs "error writing Ninja file contents: %s"

/-- Lines 213-222: open the output create-or-truncate and wrap it in a
16 MiB buffer unless stage is Main and the empty-file toggle is set, in
which case the sink is `ioutil.Discard`. -/
def openOutput (args : Args) (env : Env) (evs defers : List Event)
    (ninjaDeps : List String) : List Event × RunResult :=
  if stageOf args ≠ Stage.StageMain ∨ args.emptyNinjaFile = false then
    if env.openOk then
      writeOutput args env
        (evs ++ [Event.openOutFile (joinPath env.srcDirCtx args.outFile),
                 Event.newBufWriter (16 * 1024 * 1024)])
        defers ninjaDeps Sink.bufferedFile
    else fatalf evs "error opening Ninja file: %s"
  else writeOutput args env evs defers ninjaDeps Sink.discard

/-- Lines 207-211: the zero-length placeholder written when the
empty-build-file toggle is set. -/
def emitOutput (args : Args) (env : Env) (evs defers : List Event)
    (ninjaDeps : List String) : List Event × RunResult :=
  if args.emptyNinjaFile then
    if env.emptyWriteOk then
      openOutput args env
        (evs ++ [Event.writeEmptyFile (joinPath env.srcDirCtx args.outFile)])
        defers ninjaDeps
    else fatalf evs "error writing empty Ninja file: %s"
  else openOutput args env evs defers ninjaDeps

/-- Lines 190-200: `PrepareBuildActions`, append its extra deps, then the
`StopBeforeWriteNinja` checkpoint. -/
def runPrepare (args : Args) (env : Env) (evs defers : List Event)
    (ninjaDeps : List String) : List Event × RunResult :=
  let evs := evs ++ [Event.prepareBuildActions]
  if env.prepareBuildActions.2.length > 0 then fatalErrors evs env.prepareBuildActions.2
  else
    let ninjaDeps := ninjaDeps ++ env.prepareBuildActions.1
    if env.stopBefore = some StopBefore.stopBeforeWriteNinja then
      returnDeps evs defers ninjaDeps
    else emitOutput args env evs defers ninjaDeps

/-- Lines 178-188: `ResolveDependencies`, append its extra deps, then the
`StopBeforePrepareBuildActions` checkpoint. -/
def runResolve (args : Args) (env : Env) (evs defers : List Event)
    (ninjaDeps : List String) : List Event × RunResult :=
  let evs := evs ++ [Event.resolveDependencies]
  if env.resolveDependencies.2.length > 0 then fatalErrors evs env.resolveDependencies.2
  else
    let ninjaDeps := ninjaDeps ++ env.resolveDependencies.1
    if env.stopBefore = some StopBefore.stopBeforePrepareBuildActions then
      returnDeps evs defers ninjaDeps
    else runPrepare args env evs defers ninjaDeps

/-- Lines 162-176: the registrations, `ParseFileList`, and the append of
every parsed file to the dependency list. -/
def runParse (args : Args) (env : Env) (evs defers : List Event)
    (ninjaDeps : List String) : List Event × RunResult :=
  let evs := evs ++ [Event.registerAll (bootstrapConfigFor args), Event.parseFiles]
  if env.parseFileList.2.length > 0 then fatalErrors evs env.parseFileList.2
  else runResolve args env evs defers (ninjaDeps ++ env.parseFileList.1)

/-- Lines 122-125: `ctx.ListModulePaths(srcDir)`; an enumeration failure
is fatal. -/
def runEnumerate (args : Args) (env : Env) (evs defers : List Event)
    (ninjaDeps : List String) : List Event × RunResult :=
  let evs := evs ++ [Event.listFiles (dirOf args.topFile)]
  match env.listModulePaths with
  | .error _ => fatalf evs "could not enumerate files: %v\n"
  | .ok _ => runParse args env evs defers ninjaDeps

/-- Lines 114-121: the module list file is required; when present it seeds
the dependency list. -/
def runPipeline (args : Args) (env : Env) (evs defers : List Event) :
    List Event × RunResult :=
  if args.moduleListFile ≠ "" then
    runEnumerate args env (evs ++ [Event.setModuleListFile args.moduleListFile]) defers
      [args.moduleListFile]
  else fatalf evs "-l <moduleListFile> is required and must be nonempty"

/-- Lines 102-110: optional execution tracing; `trace.Stop` and the
profile file's close are deferred. -/
def setupTrace (args : Args) (env : Env) (evs defers : List Event) :
    List Event × RunResult :=
  if args.traceFile ≠ "" then
    if env.traceCreateOk then
      runPipeline args env
        (evs ++ [Event.createFile (joinPath env.srcDirCtx args.traceFile), Event.startTrace])
        (Event.stopTrace :: Event.closeFile (joinPath env.srcDirCtx args.traceFile) :: defers)
    else fatalf evs "error opening trace: %s"
  else runPipeline args env evs defers

/-- Lines 92-100: optional CPU profiling; `pprof.StopCPUProfile` and the
profile file's close are deferred. -/
def setupCPUProfile (args : Args) (env : Env) (evs defers : List Event) :
    List Event × RunResult :=
  if args.cpuprofile ≠ "" then
    if env.cpuprofileCreateOk then
      setupTrace args env
        (evs ++ [Event.createFile (joinPath env.srcDirCtx args.cpuprofile),
                 Event.startCPUProfile])
        (Event.stopCPUProfile :: Event.closeFile (joinPath env.srcDirCtx args.cpuprofile) :: defers)
    else fatalf evs "error opening cpuprofile: %s"
  else setupTrace args env evs defers

/-- `RunBlueprint` of `command.go`. -/
def runBlueprint (args : Args) (env : Env) : List Event × RunResult :=
  let evs := [Event.setGOMAXPROCS]
  let evs := if args.noGC then evs ++ [Event.disableGC] else evs
  setupCPUProfile args env evs []

/-- Content of the declared output path implied by a trace: absent, an
existing zero-length file, or the full serialized build graph. -/
inductive OutContent where
  | absent
  | emptyFile
  | fullGraph
deriving DecidableEq

/-- State of the output path plus the write buffer while folding a
trace. -/
structure EmitState where
  content : OutContent
  bufPending : Bool
deriving DecidableEq

/-- One trace event's effect on the output path: the placeholder write and
the create-or-truncate open make it an empty file, a buffered
`WriteBuildFile` fills the buffer, and a flush lands the buffered graph in
the file.  Events that do not touch the output path leave it unchanged. -/
def emitStep (outPath : String) (s : EmitState) (e : Event) : EmitState :=
  match e with
  | .writeEmptyFile p => if p = outPath then { content := .emptyFile, bufPending := s.bufPending } else s
  | .openOutFile p => if p = outPath then { content := .emptyFile, bufPending := false } else s
  | .writeBuildFile .bufferedFile => { s with bufPending := true }
  | .flushBuf => if s.bufPending then { content := .fullGraph, bufPending := false } else s
  | _ => s

/-- Content of the output path after a trace. -/
def outFileAfter (outPath : String) (evs : List Event) : OutContent :=
  (evs.foldl (emitStep outPath) { content := .absent, bufPending := false }).content

/-- Whether a run result is a normal return. -/
def isReturn : RunResult → Bool
  | .returned _ => true
  | .exited _ => false

/-- The profiling/tracing control events (session start and stop). -/
def isProfilingCtl : Event → Bool
  | .startCPUProfile => true
  | .stopCPUProfile => true
  | .startTrace => true
  | .stopTrace => true
  | _ => false

/-- A baseline argument record for concrete runs. -/
def argsBase : Args :=
  { outFile := "out.ninja"
    subninjas := []
    globFile := ""
    globListDir := ""
    cpuprofile := ""
    memprofile := ""
    delveListen := ""
    delvePath := ""
    traceFile := ""
    runGoTests := false
    useValidations := false
    noGC := false
    emptyNinjaFile := false
    moduleListFile := "Android.bp.list"
    topFile := "Android.bp"
    generatingPrimaryBuilder := false
    primaryBuilderInvocations := none }

/-- A baseline collaborator behaviour for concrete runs: every phase
succeeds and every I/O step works. -/
def envBase : Env :=
  { srcDirCtx := "/src"
    cpuprofileCreateOk := true
    traceCreateOk := true
    listModulePaths := .ok ["Android.bp"]
    parseFileList := (["Android.bp"], [])
    resolveDependencies := ([], [])
    prepareBuildActions := ([], [])
    stopBefore := none
    buildDir := "/out"
    emptyWriteOk := true
    openOk := true
    writeBuildFileOk := true
    flushOk := true
    closeOk := true
    removeAbandonedFilesUnder := none
    memprofileCreateOk := true }

/-- C2: with no explicit invocation list, the synthesized Invocation
Descriptor's argument sequence is exactly the optional `-t`, then `-l`
with the module list file, then `-o` with the main ninja file, then the
optional `--empty-ninja-file`, then the optional `--delve_listen` with its
value, then the optional `--delve_path` with its value, then the top-level
description file path last, in that order. -/
theorem c2_synthesized_argument_order (args : Args)
    (h : args.primaryBuilderInvocations = none) :
    invocationsFor args =
      [{ inputs := [args.topFile],
         outputs := [mainNinjaFile],
         args :=
           (if args.runGoTests then ["-t"] else []) ++
           ["-l", args.moduleListFile] ++
           ["-o", mainNinjaFile] ++
           (if args.emptyNinjaFile then ["--empty-ninja-file"] else []) ++
           (if args.delveListen ≠ "" then ["--delve_listen", args.delveListen] else []) ++
           (if args.delvePath ≠ "" then ["--delve_path", args.delvePath] else []) ++
           [args.topFile] }] := by
  simp only [invocationsFor, h]
  by_cases h1 : args.runGoTests <;> by_cases h2 : args.emptyNinjaFile <;>
    by_cases h3 : args.delveListen = "" <;> by_cases h4 : args.delvePath = "" <;>
    simp [PrimaryBuilderExtraFlags, h1, h2, h3, h4]

/-- A concrete argument record for the C2 witness: tests enabled, the
empty-file toggle set, a delve listen address, no explicit invocations. -/
def argsW2 : Args :=
  { argsBase with runGoTests := true, emptyNinjaFile := true, delveListen := "addr" }

/-- Witness for C2 at `argsW2`. -/
theorem c2_synthesized_argument_order_witness :
    invocationsFor argsW2 =
      [{ inputs := ["Android.bp"],
         outputs := [mainNinjaFile],
         args := ["-t"] ++ ["-l", "Android.bp.list"] ++ ["-o", mainNinjaFile] ++
           ["--empty-ninja-file"] ++ ["--delve_listen", "addr"] ++ [] ++ ["Android.bp"] }] := by
  have h := c2_synthesized_argument_order argsW2 rfl
  simpa [argsW2, argsBase] using h

/-- C9: an explicit invocation list is used verbatim; otherwise exactly
one descriptor is synthesized, with the top-level description file as its
single input and one path for the generated build file inside the build
directory as its single output. -/
theorem c9_invocation_list_selection (args : Args) :
    (∀ invs, args.primaryBuilderInvocations = some invs → invocationsFor args = invs) ∧
    (args.primaryBuilderInvocations = none →
      invocationsFor args =
        [{ inputs := [args.topFile],
           outputs := [mainNinjaFile],
           args := PrimaryBuilderExtraFlags args mainNinjaFile ++ [args.topFile] }] ∧
      mainNinjaFile = "$buildDir" ++ "/" ++ "build.ninja") ∧
    (bootstrapConfigFor args).primaryBuilderInvocations = invocationsFor args := by
  refine ⟨fun invs h => ?_, fun h => ⟨?_, rfl⟩, rfl⟩
  · simp [invocationsFor, h]
  · simp [invocationsFor, h]

/-- An explicit two-element invocation list for the C9 witness. -/
def invsW9 : List PrimaryBuilderInvocation :=
  [{ inputs := ["a"], outputs := ["b"], args := ["x"] },
   { inputs := ["c"], outputs := ["d"], args := ["y"] }]

/-- Witness for C9: a caller-supplied two-descriptor list is used
verbatim. -/
theorem c9_invocation_list_selection_witness :
    invocationsFor { argsBase with primaryBuilderInvocations := some invsW9 } = invsW9 :=
  (c9_invocation_list_selection
    { argsBase with primaryBuilderInvocations := some invsW9 }).1 invsW9 rfl

/-- C10: a non-nil but empty invocation list counts as supplied: the run
configuration carries zero Invocation Descriptors and the single
synthesized descriptor is not produced. -/
theorem c10_empty_invocation_list_supplied (args : Args)
    (h : args.primaryBuilderInvocations = some []) :
    invocationsFor args = [] ∧
    (bootstrapConfigFor args).primaryBuilderInvocations = [] := by
  constructor
  · simp [invocationsFor, h]
  · simp [bootstrapConfigFor, invocationsFor, h]

/-- Witness for C10 at a concrete argument record carrying a non-nil
empty invocation list. -/
theorem c10_empty_invocation_list_supplied_witness :
    invocationsFor { argsBase with primaryBuilderInvocations := some [] } = [] ∧
    (bootstrapConfigFor { argsBase with primaryBuilderInvocations := some [] }).primaryBuilderInvocations = [] :=
  c10_empty_invocation_list_supplied { argsBase with primaryBuilderInvocations := some [] } rfl

/-- C7: every expected-category error is printed with an `error:` prefix
and every other error with an `internal error:` prefix, all errors in the
batch are printed before the process terminates, the exit status is 1
(non-zero, the same for every batch), and a run result that is a normal
return has exit code 0. -/
theorem c7_fatal_error_reporting (evs : List Event) (errs : List BlueprintErr)
    (deps : List String) :
    (fatalErrors evs errs).1 =
      evs ++ errs.map (fun e => Event.print (errorMessageLine e)) ++ [Event.exitProcess 1] ∧
    (fatalErrors evs errs).2 = RunResult.exited 1 ∧
    exitCode (fatalErrors evs errs).2 ≠ 0 ∧
    (∀ e ∈ errs, Event.print (errorMessageLine e) ∈ (fatalErrors evs errs).1) ∧
    (∀ e, errorMessageLine e =
      red ++ (if isExpectedError e then "error:" else "internal error:") ++ unred ++ " " ++ errMsg e) ∧
    (∀ errs2 : List BlueprintErr, (fatalErrors evs errs2).2 = (fatalErrors evs errs).2) ∧
    exitCode (RunResult.returned deps) = 0 := by
  refine ⟨rfl, rfl, by simp [fatalErrors, exitCode], ?_, ?_, fun _ => rfl, rfl⟩
  · intro e he
    simp only [fatalErrors, List.mem_append]
    exact Or.inl (Or.inr (List.mem_map_of_mem _ he))
  · intro e
    cases e <;> rfl

/-- Witness for C7 at a concrete two-error batch (one malformed-module
error, one unclassified error). -/
theorem c7_fatal_error_reporting_witness :
    (fatalErrors [] [BlueprintErr.moduleError "bad module", BlueprintErr.otherError "boom"]).2 =
      RunResult.exited 1 ∧
    Event.print (errorMessageLine (BlueprintErr.moduleError "bad module")) ∈
      (fatalErrors [] [BlueprintErr.moduleError "bad module", BlueprintErr.otherError "boom"]).1 ∧
    errorMessageLine (BlueprintErr.otherError "boom") =
      red ++ "internal error:" ++ unred ++ " " ++ "boom" := by
  have h := c7_fatal_error_reporting []
    [BlueprintErr.moduleError "bad module", BlueprintErr.otherError "boom"] []
  exact ⟨h.2.1, h.2.2.2.1 _ (by simp), by simpa using h.2.2.2.2.1 (BlueprintErr.otherError "boom")⟩

/-- C4: every normally-returning full run yields exactly the module list
file, then every parsed description file in parse-list order, then the
extra paths from dependency resolution, then the extra paths from
build-action preparation — a pure concatenation, so earlier entries are
never reordered or dropped and duplicates are preserved. -/
theorem c4_dependency_accumulation (args : Args) (env : Env)
    (hml : args.moduleListFile ≠ "")
    (hcpu : args.cpuprofile = "" ∨ env.cpuprofileCreateOk = true)
    (htrace : args.traceFile = "" ∨ env.traceCreateOk = true)
    (henum : ∃ fs, env.listModulePaths = .ok fs)
    (hparse : env.parseFileList.2 = [])
    (hresolve : env.resolveDependencies.2 = [])
    (hstop : env.stopBefore = none)
    (hprep : env.prepareBuildActions.2 = [])
    (hempty : args.emptyNinjaFile = true → env.emptyWriteOk = true)
    (hopen : env.openOk = true)
    (hwrite : env.writeBuildFileOk = true)
    (hflush : env.flushOk = true)
    (hclose : env.closeOk = true)
    (hreap : env.removeAbandonedFilesUnder = none ∨ env.removeAbandonedFilesUnder = some true)
    (hmem : args.memprofile = "" ∨ env.memprofileCreateOk = true) :
    (runBlueprint args env).2 =
      RunResult.returned
        (args.moduleListFile ::
          (env.parseFileList.1 ++ (env.resolveDependencies.1 ++ env.prepareBuildActions.1))) := by
  obtain ⟨fs, hfs⟩ := henum
  by_cases hc : args.cpuprofile = "" <;>
  by_cases ht : args.traceFile = "" <;>
  by_cases hE : args.emptyNinjaFile <;>
  by_cases hg : args.generatingPrimaryBuilder <;>
  by_cases hm : args.memprofile = "" <;>
  rcases hreap with hreap | hreap <;>
  simp_all [runBlueprint, setupCPUProfile, setupTrace, runPipeline, runEnumerate, runParse,
    runResolve, runPrepare, emitOutput, openOutput, writeOutput, flushClose, finishRun,
    memProfile, returnDeps, stageOf]

/-- Collaborator behaviour for the C4 witness: phase outputs deliberately
repeat paths across phases. -/
def envW4 : Env :=
  { envBase with
      parseFileList := (["a/Android.bp", "b/Android.bp", "a/Android.bp"], [])
      resolveDependencies := (["a/Android.bp"], [])
      prepareBuildActions := (["b/Android.bp"], []) }

/-- Witness for C4: duplicates across phases survive in append order. -/
theorem c4_dependency_accumulation_witness :
    (runBlueprint argsBase envW4).2 =
      RunResult.returned
        ["Android.bp.list", "a/Android.bp", "b/Android.bp", "a/Android.bp",
         "a/Android.bp", "b/Android.bp"] := by
  have h := c4_dependency_accumulation argsBase envW4 (by decide) (Or.inl rfl) (Or.inl rfl)
    ⟨["Android.bp"], rfl⟩ rfl rfl rfl rfl (by intro h; exact rfl) rfl rfl rfl rfl
    (Or.inl rfl) (Or.inl rfl)
  simpa [argsBase, envW4, envBase] using h

/-- C3: with a stop-before selector the driver returns the dependency set
accumulated so far, without error, at the named boundary: stopping before
build-action preparation returns right after dependency resolution and
runs no preparation, output emission or reaping; stopping before the build
file write returns right after preparation and runs no output emission or
reaping.  The returned set is exactly the module list file plus every path
appended up to the checkpoint, in append order. -/
theorem c3_checkpoint_early_return (args : Args) (env : Env)
    (hml : args.moduleListFile ≠ "")
    (hcpu : args.cpuprofile = "" ∨ env.cpuprofileCreateOk = true)
    (htrace : args.traceFile = "" ∨ env.traceCreateOk = true)
    (henum : ∃ fs, env.listModulePaths = .ok fs)
    (hparse : env.parseFileList.2 = [])
    (hresolve : env.resolveDependencies.2 = []) :
    (env.stopBefore = some StopBefore.stopBeforePrepareBuildActions →
      (runBlueprint args env).2 =
        RunResult.returned
          (args.moduleListFile :: (env.parseFileList.1 ++ env.resolveDependencies.1)) ∧
      Event.prepareBuildActions ∉ (runBlueprint args env).1 ∧
      Event.writeEmptyFile (joinPath env.srcDirCtx args.outFile) ∉ (runBlueprint args env).1 ∧
      Event.openOutFile (joinPath env.srcDirCtx args.outFile) ∉ (runBlueprint args env).1 ∧
      Event.writeBuildFile Sink.bufferedFile ∉ (runBlueprint args env).1 ∧
      Event.writeBuildFile Sink.discard ∉ (runBlueprint args env).1 ∧
      Event.flushBuf ∉ (runBlueprint args env).1 ∧
      Event.closeOutFile ∉ (runBlueprint args env).1 ∧
      Event.removeAbandonedFiles ∉ (runBlueprint args env).1) ∧
    (env.stopBefore = some StopBefore.stopBeforeWriteNinja →
      env.prepareBuildActions.2 = [] →
      (runBlueprint args env).2 =
        RunResult.returned
          (args.moduleListFile ::
            (env.parseFileList.1 ++ (env.resolveDependencies.1 ++ env.prepareBuildActions.1))) ∧
      Event.writeEmptyFile (joinPath env.srcDirCtx args.outFile) ∉ (runBlueprint args env).1 ∧
      Event.openOutFile (joinPath env.srcDirCtx args.outFile) ∉ (runBlueprint args env).1 ∧
      Event.writeBuildFile Sink.bufferedFile ∉ (runBlueprint args env).1 ∧
      Event.writeBuildFile Sink.discard ∉ (runBlueprint args env).1 ∧
      Event.flushBuf ∉ (runBlueprint args env).1 ∧
      Event.closeOutFile ∉ (runBlueprint args env).1 ∧
      Event.removeAbandonedFiles ∉ (runBlueprint args env).1) := by
  obtain ⟨fs, hfs⟩ := henum
  constructor <;> intro hstop <;>
  [skip; intro hprep] <;>
  by_cases hc : args.cpuprofile = "" <;>
  by_cases ht : args.traceFile = "" <;>
  by_cases hgc : args.noGC <;>
  simp_all [runBlueprint, setupCPUProfile, setupTrace, runPipeline, runEnumerate, runParse,
    runResolve, runPrepare, returnDeps]

/-- Collaborator behaviour for the C3 witness: stop before preparing
build actions, with one extra path from dependency resolution. -/
def envW3 : Env :=
  { envBase with
      stopBefore := some StopBefore.stopBeforePrepareBuildActions
      resolveDependencies := (["extra.bp"], []) }

/-- Witness for C3 at the stop-before-prepare checkpoint. -/
theorem c3_checkpoint_early_return_witness :
    (runBlueprint argsBase envW3).2 =
      RunResult.returned ["Android.bp.list", "Android.bp", "extra.bp"] ∧
    Event.prepareBuildActions ∉ (runBlueprint argsBase envW3).1 ∧
    Event.writeBuildFile Sink.bufferedFile ∉ (runBlueprint argsBase envW3).1 ∧
    Event.removeAbandonedFiles ∉ (runBlueprint argsBase envW3).1 := by
  have h := (c3_checkpoint_early_return argsBase envW3 (by decide) (Or.inl rfl) (Or.inl rfl)
    ⟨["Android.bp"], rfl⟩ rfl rfl).1 rfl
  refine ⟨?_, h.2.1, h.2.2.2.2.1, h.2.2.2.2.2.2.2.2⟩
  simpa [argsBase, envW3, envBase] using h.1

/-- Membership in an if-then-else list splits on the condition. -/
theorem mem_ite_list {α : Type} {c : Prop} [Decidable c] {a : α} {l1 l2 : List α} :
    (a ∈ if c then l1 else l2) ↔ ((c ∧ a ∈ l1) ∨ (¬c ∧ a ∈ l2)) := by
  split <;> simp_all

/-- A fold over an if-then-else list splits on the condition. -/
theorem foldl_ite_list {α β : Type} {c : Prop} [Decidable c] (f : β → α → β) (s : β)
    (l1 l2 : List α) :
    List.foldl f s (if c then l1 else l2) =
      if c then List.foldl f s l1 else List.foldl f s l2 := by
  split <;> rfl

/-- A fold from an if-then-else accumulator splits on the condition. -/
theorem foldl_ite_acc {α β : Type} {c : Prop} [Decidable c] (f : β → α → β) (s1 s2 : β)
    (l : List α) :
    List.foldl f (if c then s1 else s2) l =
      if c then List.foldl f s1 l else List.foldl f s2 l := by
  split <;> rfl

set_option maxHeartbeats 1600000 in
/-- C1: when the empty-build-file toggle is set a zero-length file is
written at the output path, and full build-graph generation is performed
iff the stage is not Main or the toggle is not set; with stage Main and
the toggle set the output path ends the run existing and zero-length with
no real content written to it, while with stage Primary and the toggle set
the output path ends the run with the full generated content. -/
theorem c1_output_emission (args : Args) (env : Env)
    (hml : args.moduleListFile ≠ "")
    (hcpu : args.cpuprofile = "" ∨ env.cpuprofileCreateOk = true)
    (htrace : args.traceFile = "" ∨ env.traceCreateOk = true)
    (henum : ∃ fs, env.listModulePaths = .ok fs)
    (hparse : env.parseFileList.2 = [])
    (hresolve : env.resolveDependencies.2 = [])
    (hstop : env.stopBefore = none)
    (hprep : env.prepareBuildActions.2 = [])
    (hEW : env.emptyWriteOk = true)
    (hopen : env.openOk = true)
    (hwrite : env.writeBuildFileOk = true)
    (hflush : env.flushOk = true)
    (hclose : env.closeOk = true)
    (hreap : env.removeAbandonedFilesUnder = none ∨ env.removeAbandonedFilesUnder = some true)
    (hmem : args.memprofile = "" ∨ env.memprofileCreateOk = true) :
    (args.emptyNinjaFile = true →
      Event.writeEmptyFile (joinPath env.srcDirCtx args.outFile) ∈ (runBlueprint args env).1) ∧
    (Event.openOutFile (joinPath env.srcDirCtx args.outFile) ∈ (runBlueprint args env).1 ↔
      (stageOf args ≠ Stage.StageMain ∨ args.emptyNinjaFile = false)) ∧
    (args.emptyNinjaFile = true → args.generatingPrimaryBuilder = false →
      outFileAfter (joinPath env.srcDirCtx args.outFile) (runBlueprint args env).1 =
        OutContent.emptyFile ∧
      Event.writeBuildFile Sink.discard ∈ (runBlueprint args env).1 ∧
      Event.writeBuildFile Sink.bufferedFile ∉ (runBlueprint args env).1) ∧
    (args.emptyNinjaFile = true → args.generatingPrimaryBuilder = true →
      outFileAfter (joinPath env.srcDirCtx args.outFile) (runBlueprint args env).1 =
        OutContent.fullGraph) := by
  obtain ⟨fs, hfs⟩ := henum
  by_cases hE : args.emptyNinjaFile <;>
  by_cases hg : args.generatingPrimaryBuilder <;>
  by_cases hc : args.cpuprofile = "" <;>
  by_cases ht : args.traceFile = "" <;>
  by_cases hm : args.memprofile = "" <;>
  rcases hreap with hreap | hreap <;>
  simp [runBlueprint, setupCPUProfile, setupTrace, runPipeline, runEnumerate, runParse,
    runResolve, runPrepare, emitOutput, openOutput, writeOutput, flushClose, finishRun,
    memProfile, returnDeps, stageOf, outFileAfter, emitStep,
    mem_ite_list, foldl_ite_list, foldl_ite_acc, List.foldl_append, or_not,
    hml, hcpu.resolve_left, htrace.resolve_left, hmem.resolve_left, hfs, hparse, hresolve,
    hstop, hprep, hEW, hopen, hwrite, hflush, hclose, hreap, hE, hg, hc, ht, hm]

/-- Arguments for the C1 witness: stage Main with the empty-build-file
toggle set. -/
def argsW1 : Args := { argsBase with emptyNinjaFile := true }

/-- Witness for C1: with stage Main and the toggle set, the placeholder is
written, the output ends the run as an existing zero-length file, and the
output path is never opened for full generation. -/
theorem c1_output_emission_witness :
    Event.writeEmptyFile "/src/out.ninja" ∈ (runBlueprint argsW1 envBase).1 ∧
    outFileAfter "/src/out.ninja" (runBlueprint argsW1 envBase).1 = OutContent.emptyFile ∧
    Event.openOutFile "/src/out.ninja" ∉ (runBlueprint argsW1 envBase).1 ∧
    Event.writeBuildFile Sink.bufferedFile ∉ (runBlueprint argsW1 envBase).1 := by
  have h := c1_output_emission argsW1 envBase (by decide) (Or.inl rfl) (Or.inl rfl)
    ⟨["Android.bp"], rfl⟩ rfl rfl rfl rfl rfl rfl rfl rfl rfl (Or.inl rfl) (Or.inl rfl)
  have hpath : joinPath envBase.srcDirCtx argsW1.outFile = "/src/out.ninja" := by decide
  have hmain := h.2.2.1 rfl rfl
  refine ⟨?_, ?_, ?_, ?_⟩
  · have := h.1 rfl
    rwa [hpath] at this
  · have := hmain.1
    rwa [hpath] at this
  · have hno : ¬(stageOf argsW1 ≠ Stage.StageMain ∨ argsW1.emptyNinjaFile = false) := by decide
    intro hm
    rw [← hpath] at hm
    exact hno (h.2.1.mp hm)
  · exact hmain.2.2

/-- Arguments for the C5 counterexample: an empty module list path
together with a configured CPU-profile path. -/
def argsC5 : Args := { argsBase with moduleListFile := "", cpuprofile := "cpu.prof" }

/-- Counterexample to C5 as stated: with an empty module list path and a
CPU-profile path configured, the run does terminate fatally, but the
CPU-profile file is created (and sampling started) before the fatal check,
so the failure is not "before any file is written" nor "before CPU-profile
files are created". -/
theorem c5_counterexample :
    (runBlueprint argsC5 envBase).2 = RunResult.exited 1 ∧
    Event.createFile "/src/cpu.prof" ∈ (runBlueprint argsC5 envBase).1 ∧
    Event.startCPUProfile ∈ (runBlueprint argsC5 envBase).1 := by
  refine ⟨by decide, by decide, by decide⟩

/-- C5 amended: with an empty module list path the driver terminates
fatally before the module list is consumed, before description files are
enumerated, and before any build output is written; CPU-profile and trace
files, however, are created before this check when configured. -/
theorem c5_empty_module_list_fatal (args : Args) (env : Env)
    (hml : args.moduleListFile = "") :
    (runBlueprint args env).2 = RunResult.exited 1 ∧
    Event.setModuleListFile args.moduleListFile ∉ (runBlueprint args env).1 ∧
    Event.listFiles (dirOf args.topFile) ∉ (runBlueprint args env).1 ∧
    Event.parseFiles ∉ (runBlueprint args env).1 ∧
    Event.writeEmptyFile (joinPath env.srcDirCtx args.outFile) ∉ (runBlueprint args env).1 ∧
    Event.openOutFile (joinPath env.srcDirCtx args.outFile) ∉ (runBlueprint args env).1 ∧
    Event.writeBuildFile Sink.bufferedFile ∉ (runBlueprint args env).1 ∧
    Event.writeBuildFile Sink.discard ∉ (runBlueprint args env).1 := by
  by_cases hc : args.cpuprofile = "" <;>
  by_cases hck : env.cpuprofileCreateOk <;>
  by_cases ht : args.traceFile = "" <;>
  by_cases htk : env.traceCreateOk <;>
  by_cases hgc : args.noGC <;>
  simp [runBlueprint, setupCPUProfile, setupTrace, runPipeline, fatalf,
    hml, hc, hck, ht, htk, hgc]

/-- Witness for C5 amended at a concrete empty-module-list run. -/
theorem c5_empty_module_list_fatal_witness :
    (runBlueprint { argsBase with moduleListFile := "" } envBase).2 = RunResult.exited 1 ∧
    Event.parseFiles ∉ (runBlueprint { argsBase with moduleListFile := "" } envBase).1 := by
  have h := c5_empty_module_list_fatal { argsBase with moduleListFile := "" } envBase rfl
  exact ⟨h.1, h.2.2.2.1⟩

/-- Arguments for the C6 counterexample: CPU profiling configured, module
list path empty so the run terminates fatally after acquisition. -/
def argsC6 : Args := { argsBase with cpuprofile := "cpu.prof", moduleListFile := "" }

/-- Counterexample to C6 as stated: a fatal termination path reached after
the CPU-profiling session was acquired exits via `os.Exit(1)`, which skips
the deferred `StopCPUProfile`, so the session is not stopped or flushed on
that exit path. -/
theorem c6_counterexample :
    Event.startCPUProfile ∈ (runBlueprint argsC6 envBase).1 ∧
    Event.stopCPUProfile ∉ (runBlueprint argsC6 envBase).1 ∧
    (runBlueprint argsC6 envBase).2 = RunResult.exited 1 := by
  refine ⟨by decide, by decide, by decide⟩

/-- Deferred events survive into the trace of every normal return of
`memProfile`. -/
theorem memProfile_keepsDefers (args : Args) (env : Env) (evs defers : List Event)
    (nd : List String) (e : Event) (he : e ∈ defers)
    (h : isReturn (memProfile args env evs defers nd).2 = true) :
    e ∈ (memProfile args env evs defers nd).1 := by
  by_cases hm : args.memprofile = "" <;> by_cases hk : env.memprofileCreateOk = true <;>
  simp_all [memProfile, returnDeps, fatalf, isReturn]

/-- Deferred events survive into the trace of every normal return of
`finishRun`. -/
theorem finishRun_keepsDefers (args : Args) (env : Env) (evs defers : List Event)
    (nd : List String) (e : Event) (he : e ∈ defers)
    (h : isReturn (finishRun args env evs defers nd).2 = true) :
    e ∈ (finishRun args env evs defers nd).1 := by
  rcases hr : env.removeAbandonedFilesUnder with _ | ok
  · simp only [finishRun, hr] at h ⊢
    exact memProfile_keepsDefers args env evs defers nd e he h
  · cases ok
    · simp_all [finishRun, hr, fatalf, isReturn]
    · simp only [finishRun, hr, if_pos] at h ⊢
      exact memProfile_keepsDefers args env _ defers nd e he h

/-- Deferred events survive into the trace of every normal return of
`flushClose`. -/
theorem flushClose_keepsDefers (args : Args) (env : Env) (evs defers : List Event)
    (nd : List String) (out : Sink) (e : Event) (he : e ∈ defers)
    (h : isReturn (flushClose args env evs defers nd out).2 = true) :
    e ∈ (flushClose args env evs defers nd out).1 := by
  cases out
  · by_cases hf : env.flushOk = true <;> by_cases hc : env.closeOk = true <;>
      simp only [flushClose, hf, hc, if_pos, if_neg, if_true, if_false, Bool.false_eq_true] at h ⊢
    · exact finishRun_keepsDefers args env _ defers nd e he h
    all_goals simp_all [fatalf, isReturn]
  · simp only [flushClose] at h ⊢
    exact finishRun_keepsDefers args env evs defers nd e he h

/-- Deferred events survive into the trace of every normal return of
`writeOutput`. -/
theorem writeOutput_keepsDefers (args : Args) (env : Env) (evs defers : List Event)
    (nd : List String) (out : Sink) (e : Event) (he : e ∈ defers)
    (h : isReturn (writeOutput args env evs defers nd out).2 = true) :
    e ∈ (writeOutput args env evs defers nd out).1 := by
  by_cases hw : env.writeBuildFileOk = true <;>
    simp only [writeOutput, hw, if_pos, if_neg, if_true, if_false, Bool.false_eq_true] at h ⊢
  · exact flushClose_keepsDefers args env _ defers nd out e he h
  · simp_all [fatalf, isReturn]

/-- Deferred events survive into the trace of every normal return of
`openOutput`. -/
theorem openOutput_keepsDefers (args : Args) (env : Env) (evs defers : List Event)
    (nd : List String) (e : Event) (he : e ∈ defers)
    (h : isReturn (openOutput args env evs defers nd).2 = true) :
    e ∈ (openOutput args env evs defers nd).1 := by
  by_cases hs : (stageOf args ≠ Stage.StageMain ∨ args.emptyNinjaFile = false) <;>
  by_cases ho : env.openOk = true <;>
    simp only [openOutput, hs, ho, if_pos, if_neg, if_true, if_false, Bool.false_eq_true] at h ⊢
  · exact writeOutput_keepsDefers args env _ defers nd Sink.bufferedFile e he h
  · simp_all [fatalf, isReturn]
  · exact writeOutput_keepsDefers args env evs defers nd Sink.discard e he h
  · exact writeOutput_keepsDefers args env evs defers nd Sink.discard e he h

/-- Deferred events survive into the trace of every normal return of
`emitOutput`. -/
theorem emitOutput_keepsDefers (args : Args) (env : Env) (evs defers : List Event)
    (nd : List String) (e : Event) (he : e ∈ defers)
    (h : isReturn (emitOutput args env evs defers nd).2 = true) :
    e ∈ (emitOutput args env evs defers nd).1 := by
  by_cases hE : args.emptyNinjaFile = true <;> by_cases hk : env.emptyWriteOk = true <;>
    simp only [emitOutput, hE, hk, if_pos, if_neg, if_true, if_false, Bool.false_eq_true] at h ⊢
  · exact openOutput_keepsDefers args env _ defers nd e he h
  · simp_all [fatalf, isReturn]
  · exact openOutput_keepsDefers args env evs defers nd e he h
  · exact openOutput_keepsDefers args env evs defers nd e he h

/-- Deferred events survive into the trace of every normal return of
`runPrepare`, including the stop-before-write-ninja checkpoint return. -/
theorem runPrepare_keepsDefers (args : Args) (env : Env) (evs defers : List Event)
    (nd : List String) (e : Event) (he : e ∈ defers)
    (h : isReturn (runPrepare args env evs defers nd).2 = true) :
    e ∈ (runPrepare args env evs defers nd).1 := by
  by_cases hp : env.prepareBuildActions.2.length > 0 <;>
  by_cases hs : env.stopBefore = some StopBefore.stopBeforeWriteNinja <;>
    simp only [runPrepare, hp, hs, if_pos, if_neg, if_true, if_false] at h ⊢
  · simp_all [fatalErrors, isReturn]
  · simp_all [fatalErrors, isReturn]
  · simp [returnDeps, he]
  · exact emitOutput_keepsDefers args env _ defers _ e he h

/-- Deferred events survive into the trace of every normal return of
`runResolve`, including the stop-before-prepare checkpoint return. -/
theorem runResolve_keepsDefers (args : Args) (env : Env) (evs defers : List Event)
    (nd : List String) (e : Event) (he : e ∈ defers)
    (h : isReturn (runResolve args env evs defers nd).2 = true) :
    e ∈ (runResolve args env evs defers nd).1 := by
  by_cases hr : env.resolveDependencies.2.length > 0 <;>
  by_cases hs : env.stopBefore = some StopBefore.stopBeforePrepareBuildActions <;>
    simp only [runResolve, hr, hs, if_pos, if_neg, if_true, if_false] at h ⊢
  · simp_all [fatalErrors, isReturn]
  · simp_all [fatalErrors, isReturn]
  · simp [returnDeps, he]
  · exact runPrepare_keepsDefers args env _ defers _ e he h

/-- Deferred events survive into the trace of every normal return of
`runParse`. -/
theorem runParse_keepsDefers (args : Args) (env : Env) (evs defers : List Event)
    (nd : List String) (e : Event) (he : e ∈ defers)
    (h : isReturn (runParse args env evs defers nd).2 = true) :
    e ∈ (runParse args env evs defers nd).1 := by
  by_cases hp : env.parseFileList.2.length > 0 <;>
    simp only [runParse, hp, if_pos, if_neg, if_true, if_false] at h ⊢
  · simp_all [fatalErrors, isReturn]
  · exact runResolve_keepsDefers args env _ defers _ e he h

/-- Deferred events survive into the trace of every normal return of
`runEnumerate`. -/
theorem runEnumerate_keepsDefers (args : Args) (env : Env) (evs defers : List Event)
    (nd : List String) (e : Event) (he : e ∈ defers)
    (h : isReturn (runEnumerate args env evs defers nd).2 = true) :
    e ∈ (runEnumerate args env evs defers nd).1 := by
  rcases hl : env.listModulePaths with err | fs <;>
    simp only [runEnumerate, hl] at h ⊢
  · simp_all [fatalf, isReturn]
  · exact runParse_keepsDefers args env _ defers nd e he h

/-- Deferred events survive into the trace of every normal return of
`runPipeline`. -/
theorem runPipeline_keepsDefers (args : Args) (env : Env) (evs defers : List Event)
    (e : Event) (he : e ∈ defers)
    (h : isReturn (runPipeline args env evs defers).2 = true) :
    e ∈ (runPipeline args env evs defers).1 := by
  by_cases hm : args.moduleListFile = "" <;>
    simp only [runPipeline, hm, ne_eq, not_true_eq_false, not_false_eq_true,
      if_pos, if_neg, if_true, if_false] at h ⊢
  · simp_all [fatalf, isReturn]
  · exact runEnumerate_keepsDefers args env _ defers _ e he h

/-- `memProfile` introduces no profiling-session start events. -/
theorem memProfile_startFrom (args : Args) (env : Env) (evs defers : List Event)
    (nd : List String) (e : Event)
    (hp : e = Event.startCPUProfile ∨ e = Event.startTrace)
    (h : e ∈ (memProfile args env evs defers nd).1) : e ∈ evs ∨ e ∈ defers := by
  rcases hp with rfl | rfl <;>
  by_cases hm : args.memprofile = "" <;> by_cases hk : env.memprofileCreateOk = true <;>
  simp_all [memProfile, returnDeps, fatalf]

/-- `finishRun` introduces no profiling-session start events. -/
theorem finishRun_startFrom (args : Args) (env : Env) (evs defers : List Event)
    (nd : List String) (e : Event)
    (hp : e = Event.startCPUProfile ∨ e = Event.startTrace)
    (h : e ∈ (finishRun args env evs defers nd).1) : e ∈ evs ∨ e ∈ defers := by
  rcases hr : env.removeAbandonedFilesUnder with _ | ok
  · simp only [finishRun, hr] at h
    exact memProfile_startFrom args env evs defers nd e hp h
  · cases ok
    · simp only [finishRun, hr, if_false, Bool.false_eq_true] at h
      rcases hp with rfl | rfl <;> simp_all [fatalf]
    · simp only [finishRun, hr, if_true] at h
      refine (memProfile_startFrom args env _ defers nd e hp h).imp ?_ id
      intro h2
      rcases hp with rfl | rfl <;> simp_all

/-- `flushClose` introduces no profiling-session start events. -/
theorem flushClose_startFrom (args : Args) (env : Env) (evs defers : List Event)
    (nd : List String) (out : Sink) (e : Event)
    (hp : e = Event.startCPUProfile ∨ e = Event.startTrace)
    (h : e ∈ (flushClose args env evs defers nd out).1) : e ∈ evs ∨ e ∈ defers := by
  cases out
  · by_cases hf : env.flushOk = true <;> by_cases hc : env.closeOk = true <;>
      simp only [flushClose, hf, hc, if_pos, if_neg, if_true, if_false,
        Bool.false_eq_true] at h
    · refine (finishRun_startFrom args env _ defers nd e hp h).imp ?_ id
      intro h2
      rcases hp with rfl | rfl <;> simp_all
    all_goals rcases hp with rfl | rfl <;> simp_all [fatalf]
  · simp only [flushClose] at h
    exact finishRun_startFrom args env evs defers nd e hp h

/-- `writeOutput` introduces no profiling-session start events. -/
theorem writeOutput_startFrom (args : Args) (env : Env) (evs defers : List Event)
    (nd : List String) (out : Sink) (e : Event)
    (hp : e = Event.startCPUProfile ∨ e = Event.startTrace)
    (h : e ∈ (writeOutput args env evs defers nd out).1) : e ∈ evs ∨ e ∈ defers := by
  by_cases hg : args.globFile = "" <;> by_cases hw : env.writeBuildFileOk = true <;>
    simp only [writeOutput, hg, hw, ne_eq, not_true_eq_false, not_false_eq_true,
      if_pos, if_neg, if_true, if_false, Bool.false_eq_true] at h
  all_goals
    first
    | (refine (flushClose_startFrom args env _ defers nd out e hp h).imp ?_ id
       intro h2
       rcases hp with rfl | rfl <;> simp_all)
    | (rcases hp with rfl | rfl <;> simp_all [fatalf])

/-- `openOutput` introduces no profiling-session start events. -/
theorem openOutput_startFrom (args : Args) (env : Env) (evs defers : List Event)
    (nd : List String) (e : Event)
    (hp : e = Event.startCPUProfile ∨ e = Event.startTrace)
    (h : e ∈ (openOutput args env evs defers nd).1) : e ∈ evs ∨ e ∈ defers := by
  by_cases hs : (stageOf args ≠ Stage.StageMain ∨ args.emptyNinjaFile = false) <;>
  by_cases ho : env.openOk = true <;>
    simp only [openOutput, hs, ho, if_pos, if_neg, if_true, if_false,
      Bool.false_eq_true] at h
  all_goals
    first
    | (refine (writeOutput_startFrom args env _ defers nd _ e hp h).imp ?_ id
       intro h2
       rcases hp with rfl | rfl <;> simp_all)
    | (rcases hp with rfl | rfl <;> simp_all [fatalf])

/-- `emitOutput` introduces no profiling-session start events. -/
theorem emitOutput_startFrom (args : Args) (env : Env) (evs defers : List Event)
    (nd : List String) (e : Event)
    (hp : e = Event.startCPUProfile ∨ e = Event.startTrace)
    (h : e ∈ (emitOutput args env evs defers nd).1) : e ∈ evs ∨ e ∈ defers := by
  by_cases hE : args.emptyNinjaFile = true <;> by_cases hk : env.emptyWriteOk = true <;>
    simp only [emitOutput, hE, hk, if_pos, if_neg, if_true, if_false,
      Bool.false_eq_true] at h
  all_goals
    first
    | (refine (openOutput_startFrom args env _ defers nd e hp h).imp ?_ id
       intro h2
       rcases hp with rfl | rfl <;> simp_all)
    | (rcases hp with rfl | rfl <;> simp_all [fatalf])

/-- `runPrepare` introduces no profiling-session start events. -/
theorem runPrepare_startFrom (args : Args) (env : Env) (evs defers : List Event)
    (nd : List String) (e : Event)
    (hp : e = Event.startCPUProfile ∨ e = Event.startTrace)
    (h : e ∈ (runPrepare args env evs defers nd).1) : e ∈ evs ∨ e ∈ defers := by
  by_cases hpr : env.prepareBuildActions.2.length > 0 <;>
  by_cases hs : env.stopBefore = some StopBefore.stopBeforeWriteNinja <;>
    simp only [runPrepare, hpr, hs, if_pos, if_neg, if_true, if_false] at h
  all_goals
    first
    | (refine (emitOutput_startFrom args env _ defers _ e hp h).imp ?_ id
       intro h2
       rcases hp with rfl | rfl <;> simp_all)
    | (rcases hp with rfl | rfl <;> simp_all [fatalErrors, returnDeps])

/-- `runResolve` introduces no profiling-session start events. -/
theorem runResolve_startFrom (args : Args) (env : Env) (evs defers : List Event)
    (nd : List String) (e : Event)
    (hp : e = Event.startCPUProfile ∨ e = Event.startTrace)
    (h : e ∈ (runResolve args env evs defers nd).1) : e ∈ evs ∨ e ∈ defers := by
  by_cases hr : env.resolveDependencies.2.length > 0 <;>
  by_cases hs : env.stopBefore = some StopBefore.stopBeforePrepareBuildActions <;>
    simp only [runResolve, hr, hs, if_pos, if_neg, if_true, if_false] at h
  all_goals
    first
    | (refine (runPrepare_startFrom args env _ defers _ e hp h).imp ?_ id
       intro h2
       rcases hp with rfl | rfl <;> simp_all)
    | (rcases hp with rfl | rfl <;> simp_all [fatalErrors, returnDeps])

/-- `runParse` introduces no profiling-session start events. -/
theorem runParse_startFrom (args : Args) (env : Env) (evs defers : List Event)
    (nd : List String) (e : Event)
    (hp : e = Event.startCPUProfile ∨ e = Event.startTrace)
    (h : e ∈ (runParse args env evs defers nd).1) : e ∈ evs ∨ e ∈ defers := by
  by_cases hpa : env.parseFileList.2.length > 0 <;>
    simp only [runParse, hpa, if_pos, if_neg, if_true, if_false] at h
  · rcases hp with rfl | rfl <;> simp_all [fatalErrors]
  · refine (runResolve_startFrom args env _ defers _ e hp h).imp ?_ id
    intro h2
    rcases hp with rfl | rfl <;> simp_all

/-- `runEnumerate` introduces no profiling-session start events. -/
theorem runEnumerate_startFrom (args : Args) (env : Env) (evs defers : List Event)
    (nd : List String) (e : Event)
    (hp : e = Event.startCPUProfile ∨ e = Event.startTrace)
    (h : e ∈ (runEnumerate args env evs defers nd).1) : e ∈ evs ∨ e ∈ defers := by
  rcases hl : env.listModulePaths with err | fs <;>
    simp only [runEnumerate, hl] at h
  · rcases hp with rfl | rfl <;> simp_all [fatalf]
  · refine (runParse_startFrom args env _ defers nd e hp h).imp ?_ id
    intro h2
    rcases hp with rfl | rfl <;> simp_all

/-- `runPipeline` introduces no profiling-session start events. -/
theorem runPipeline_startFrom (args : Args) (env : Env) (evs defers : List Event)
    (e : Event)
    (hp : e = Event.startCPUProfile ∨ e = Event.startTrace)
    (h : e ∈ (runPipeline args env evs defers).1) : e ∈ evs ∨ e ∈ defers := by
  by_cases hm : args.moduleListFile = "" <;>
    simp only [runPipeline, hm, ne_eq, not_true_eq_false, not_false_eq_true,
      if_pos, if_neg, if_true, if_false] at h
  · rcases hp with rfl | rfl <;> simp_all [fatalf]
  · refine (runEnumerate_startFrom args env _ defers _ e hp h).imp ?_ id
    intro h2
    rcases hp with rfl | rfl <;> simp_all

/-- Deferred events survive into the trace of every normal return of
`setupTrace`. -/
theorem setupTrace_keepsDefers (args : Args) (env : Env) (evs defers : List Event)
    (e : Event) (he : e ∈ defers)
    (hret : isReturn (setupTrace args env evs defers).2 = true) :
    e ∈ (setupTrace args env evs defers).1 := by
  by_cases ht : args.traceFile = "" <;> by_cases htk : env.traceCreateOk = true <;>
    simp only [setupTrace, ht, htk, ne_eq, not_true_eq_false, not_false_eq_true,
      if_pos, if_neg, if_true, if_false, Bool.false_eq_true] at hret ⊢
  · exact runPipeline_keepsDefers args env evs defers e he hret
  · exact runPipeline_keepsDefers args env evs defers e he hret
  · exact runPipeline_keepsDefers args env _ _ e (by simp [he]) hret
  · simp_all [fatalf, isReturn]

/-- A CPU-profiling start event in a `setupTrace` trace was already
present in the prefix or the deferred list. -/
theorem setupTrace_cpuStartFrom (args : Args) (env : Env) (evs defers : List Event)
    (h : Event.startCPUProfile ∈ (setupTrace args env evs defers).1) :
    Event.startCPUProfile ∈ evs ∨ Event.startCPUProfile ∈ defers := by
  by_cases ht : args.traceFile = "" <;> by_cases htk : env.traceCreateOk = true <;>
    simp only [setupTrace, ht, htk, ne_eq, not_true_eq_false, not_false_eq_true,
      if_pos, if_neg, if_true, if_false, Bool.false_eq_true] at h
  · exact runPipeline_startFrom args env evs defers _ (Or.inl rfl) h
  · exact runPipeline_startFrom args env evs defers _ (Or.inl rfl) h
  · rcases runPipeline_startFrom args env _ _ _ (Or.inl rfl) h with h2 | h2 <;> simp_all
  · simp_all [fatalf]

/-- On every normal return of `setupTrace` in which a tracing session was
started and tracing was not already running, the deferred `trace.Stop`
appears in the trace. -/
theorem setupTrace_traceRelease (args : Args) (env : Env) (evs defers : List Event)
    (hret : isReturn (setupTrace args env evs defers).2 = true)
    (hs : Event.startTrace ∈ (setupTrace args env evs defers).1)
    (hpre : Event.startTrace ∉ evs) (hd : Event.startTrace ∉ defers) :
    Event.stopTrace ∈ (setupTrace args env evs defers).1 := by
  by_cases ht : args.traceFile = "" <;> by_cases htk : env.traceCreateOk = true <;>
    simp only [setupTrace, ht, htk, ne_eq, not_true_eq_false, not_false_eq_true,
      if_pos, if_neg, if_true, if_false, Bool.false_eq_true] at hret hs ⊢
  · rcases runPipeline_startFrom args env evs defers _ (Or.inr rfl) hs with h2 | h2
    · exact absurd h2 hpre
    · exact absurd h2 hd
  · rcases runPipeline_startFrom args env evs defers _ (Or.inr rfl) hs with h2 | h2
    · exact absurd h2 hpre
    · exact absurd h2 hd
  · exact runPipeline_keepsDefers args env _ _ _ (by simp) hret
  · simp_all [fatalf, isReturn]

/-- On every normal return of `setupCPUProfile` in which a CPU-profiling
session was started and profiling was not already running, the deferred
`StopCPUProfile` appears in the trace. -/
theorem setupCPUProfile_cpuRelease (args : Args) (env : Env) (evs defers : List Event)
    (hret : isReturn (setupCPUProfile args env evs defers).2 = true)
    (hs : Event.startCPUProfile ∈ (setupCPUProfile args env evs defers).1)
    (hpre : Event.startCPUProfile ∉ evs) (hd : Event.startCPUProfile ∉ defers) :
    Event.stopCPUProfile ∈ (setupCPUProfile args env evs defers).1 := by
  by_cases hc : args.cpuprofile = "" <;> by_cases hck : env.cpuprofileCreateOk = true <;>
    simp only [setupCPUProfile, hc, hck, ne_eq, not_true_eq_false, not_false_eq_true,
      if_pos, if_neg, if_true, if_false, Bool.false_eq_true] at hret hs ⊢
  · rcases setupTrace_cpuStartFrom args env evs defers hs with h2 | h2
    · exact absurd h2 hpre
    · exact absurd h2 hd
  · rcases setupTrace_cpuStartFrom args env evs defers hs with h2 | h2
    · exact absurd h2 hpre
    · exact absurd h2 hd
  · exact setupTrace_keepsDefers args env _ _ _ (by simp) hret
  · simp_all [fatalf, isReturn]

/-- On every normal return of `setupCPUProfile` in which a tracing session
was started and tracing was not already running, the deferred `trace.Stop`
appears in the trace. -/
theorem setupCPUProfile_traceRelease (args : Args) (env : Env) (evs defers : List Event)
    (hret : isReturn (setupCPUProfile args env evs defers).2 = true)
    (hs : Event.startTrace ∈ (setupCPUProfile args env evs defers).1)
    (hpre : Event.startTrace ∉ evs) (hd : Event.startTrace ∉ defers) :
    Event.stopTrace ∈ (setupCPUProfile args env evs defers).1 := by
  by_cases hc : args.cpuprofile = "" <;> by_cases hck : env.cpuprofileCreateOk = true <;>
    simp only [setupCPUProfile, hc, hck, ne_eq, not_true_eq_false, not_false_eq_true,
      if_pos, if_neg, if_true, if_false, Bool.false_eq_true] at hret hs ⊢
  · exact setupTrace_traceRelease args env evs defers hret hs hpre hd
  · exact setupTrace_traceRelease args env evs defers hret hs hpre hd
  · exact setupTrace_traceRelease args env _ _ hret hs (by simp [hpre]) (by simp [hd])
  · simp_all [fatalf, isReturn]

/-- C6 amended: every profiling or tracing session acquired during a run
is stopped (the deferred stop runs) on every path on which `RunBlueprint`
returns, including early checkpoint returns; fatal termination paths go
through `os.Exit(1)`, which skips the deferred stop (see the
counterexample). -/
theorem c6_session_release_on_return (args : Args) (env : Env) (evs : List Event)
    (deps : List String)
    (h : runBlueprint args env = (evs, RunResult.returned deps)) :
    (Event.startCPUProfile ∈ evs → Event.stopCPUProfile ∈ evs) ∧
    (Event.startTrace ∈ evs → Event.stopTrace ∈ evs) := by
  have hA : (runBlueprint args env).1 = evs := by rw [h]
  have hret : isReturn (runBlueprint args env).2 = true := by rw [h]; rfl
  rw [← hA]
  simp only [runBlueprint] at hret ⊢
  have hpre1 : Event.startCPUProfile ∉
      (if args.noGC then [Event.setGOMAXPROCS] ++ [Event.disableGC] else [Event.setGOMAXPROCS]) := by
    by_cases hgc : args.noGC <;> simp [hgc]
  have hpre2 : Event.startTrace ∉
      (if args.noGC then [Event.setGOMAXPROCS] ++ [Event.disableGC] else [Event.setGOMAXPROCS]) := by
    by_cases hgc : args.noGC <;> simp [hgc]
  constructor <;> intro hs
  · exact setupCPUProfile_cpuRelease args env _ [] hret hs hpre1 (by simp)
  · exact setupCPUProfile_traceRelease args env _ [] hret hs hpre2 (by simp)

/-- Arguments for the C6 witness: both CPU profiling and tracing
configured on a successful run. -/
def argsW6 : Args := { argsBase with cpuprofile := "cpu.prof", traceFile := "trace.out" }

/-- Witness for C6 amended: on a concrete normal return with both
sessions acquired, both deferred stops appear in the trace. -/
theorem c6_session_release_on_return_witness :
    Event.stopCPUProfile ∈ (runBlueprint argsW6 envBase).1 ∧
    Event.stopTrace ∈ (runBlueprint argsW6 envBase).1 := by
  have h : runBlueprint argsW6 envBase =
      ((runBlueprint argsW6 envBase).1, RunResult.returned ["Android.bp.list", "Android.bp"]) :=
    Prod.ext_iff.mpr ⟨rfl, by decide⟩
  have h2 := c6_session_release_on_return argsW6 envBase _ _ h
  exact ⟨h2.1 (by decide), h2.2 (by decide)⟩

/-- C8: when full generation proceeds, the output is opened
create-or-truncate, wrapped in a 16 MiB buffer, written, flushed, and
closed, in that strict order; a failure at the open, write, flush, or
close step is fatal with a distinct message naming the step; when full
generation is skipped, the build-graph write still happens but goes to the
no-op sink, with no flush or close. -/
theorem c8_output_write_sequence (args : Args) (env : Env)
    (hml : args.moduleListFile ≠ "")
    (hc : args.cpuprofile = "")
    (ht : args.traceFile = "")
    (hgc : args.noGC = false)
    (hglob : args.globFile = "")
    (hmem : args.memprofile = "")
    (henum : ∃ fs, env.listModulePaths = .ok fs)
    (hparse : env.parseFileList.2 = [])
    (hresolve : env.resolveDependencies.2 = [])
    (hstop : env.stopBefore = none)
    (hprep : env.prepareBuildActions.2 = [])
    (hEW : env.emptyWriteOk = true)
    (hreap : env.removeAbandonedFilesUnder = none) :
    (args.emptyNinjaFile = false → env.openOk = true → env.writeBuildFileOk = true →
      env.flushOk = true → env.closeOk = true →
      runBlueprint args env =
        ([Event.setGOMAXPROCS, Event.setModuleListFile args.moduleListFile,
          Event.listFiles (dirOf args.topFile), Event.registerAll (bootstrapConfigFor args),
          Event.parseFiles, Event.resolveDependencies, Event.prepareBuildActions,
          Event.openOutFile (joinPath env.srcDirCtx args.outFile),
          Event.newBufWriter (16 * 1024 * 1024),
          Event.writeBuildFile Sink.bufferedFile, Event.flushBuf, Event.closeOutFile],
         RunResult.returned
           (args.moduleListFile ::
             (env.parseFileList.1 ++ (env.resolveDependencies.1 ++ env.prepareBuildActions.1))))) ∧
    (args.emptyNinjaFile = false → env.openOk = false →
      (runBlueprint args env).2 = RunResult.exited 1 ∧
      Event.print "error opening Ninja file: %s" ∈ (runBlueprint args env).1 ∧
      Event.openOutFile (joinPath env.srcDirCtx args.outFile) ∉ (runBlueprint args env).1 ∧
      Event.writeBuildFile Sink.bufferedFile ∉ (runBlueprint args env).1) ∧
    (args.emptyNinjaFile = false → env.openOk = true → env.writeBuildFileOk = false →
      (runBlueprint args env).2 = RunResult.exited 1 ∧
      Event.print "error writing Ninja file contents: %s" ∈ (runBlueprint args env).1 ∧
      Event.flushBuf ∉ (runBlueprint args env).1 ∧
      Event.closeOutFile ∉ (runBlueprint args env).1) ∧
    (args.emptyNinjaFile = false → env.openOk = true → env.writeBuildFileOk = true →
      env.flushOk = false →
      (runBlueprint args env).2 = RunResult.exited 1 ∧
      Event.print "error flushing Ninja file contents: %s" ∈ (runBlueprint args env).1) ∧
    (args.emptyNinjaFile = false → env.openOk = true → env.writeBuildFileOk = true →
      env.flushOk = true → env.closeOk = false →
      (runBlueprint args env).2 = RunResult.exited 1 ∧
      Event.print "error closing Ninja file: %s" ∈ (runBlueprint args env).1) ∧
    (args.emptyNinjaFile = true → args.generatingPrimaryBuilder = false →
      env.writeBuildFileOk = true →
      runBlueprint args env =
        ([Event.setGOMAXPROCS, Event.setModuleListFile args.moduleListFile,
          Event.listFiles (dirOf args.topFile), Event.registerAll (bootstrapConfigFor args),
          Event.parseFiles, Event.resolveDependencies, Event.prepareBuildActions,
          Event.writeEmptyFile (joinPath env.srcDirCtx args.outFile),
          Event.writeBuildFile Sink.discard],
         RunResult.returned
           (args.moduleListFile ::
             (env.parseFileList.1 ++ (env.resolveDependencies.1 ++ env.prepareBuildActions.1))))) ∧
    (("error opening Ninja file: %s" ≠ "error writing Ninja file contents: %s") ∧
     ("error opening Ninja file: %s" ≠ "error flushing Ninja file contents: %s") ∧
     ("error opening Ninja file: %s" ≠ "error closing Ninja file: %s") ∧
     ("error writing Ninja file contents: %s" ≠ "error flushing Ninja file contents: %s") ∧
     ("error writing Ninja file contents: %s" ≠ "error closing Ninja file: %s") ∧
     ("error flushing Ninja file contents: %s" ≠ "error closing Ninja file: %s")) := by
  obtain ⟨fs, hfs⟩ := henum
  refine ⟨?_, ?_, ?_, ?_, ?_, ?_, by decide, by decide, by decide, by decide, by decide, by decide⟩ <;>
  intro h1 h2 <;> first
  | (intro h3 h4 h5
     simp [runBlueprint, setupCPUProfile, setupTrace, runPipeline, runEnumerate, runParse,
       runResolve, runPrepare, emitOutput, openOutput, writeOutput, flushClose, finishRun,
       memProfile, returnDeps, fatalf, stageOf,
       hml, hc, ht, hgc, hglob, hmem, hfs, hparse, hresolve, hstop, hprep, hEW, hreap,
       h1, h2, h3, h4, h5])
  | (intro h3 h4
     simp [runBlueprint, setupCPUProfile, setupTrace, runPipeline, runEnumerate, runParse,
       runResolve, runPrepare, emitOutput, openOutput, writeOutput, flushClose, finishRun,
       memProfile, returnDeps, fatalf, stageOf,
       hml, hc, ht, hgc, hglob, hmem, hfs, hparse, hresolve, hstop, hprep, hEW, hreap,
       h1, h2, h3, h4])
  | (intro h3
     simp [runBlueprint, setupCPUProfile, setupTrace, runPipeline, runEnumerate, runParse,
       runResolve, runPrepare, emitOutput, openOutput, writeOutput, flushClose, finishRun,
       memProfile, returnDeps, fatalf, stageOf,
       hml, hc, ht, hgc, hglob, hmem, hfs, hparse, hresolve, hstop, hprep, hEW, hreap,
       h1, h2, h3])
  | (simp [runBlueprint, setupCPUProfile, setupTrace, runPipeline, runEnumerate, runParse,
       runResolve, runPrepare, emitOutput, openOutput, writeOutput, flushClose, finishRun,
       memProfile, returnDeps, fatalf, stageOf,
       hml, hc, ht, hgc, hglob, hmem, hfs, hparse, hresolve, hstop, hprep, hEW, hreap,
       h1, h2])

/-- Witness for C8 at a concrete full-generation run: the exact trace
shows open, buffer, write, flush, close in strict order. -/
theorem c8_output_write_sequence_witness :
    runBlueprint argsBase envBase =
      ([Event.setGOMAXPROCS, Event.setModuleListFile "Android.bp.list",
        Event.listFiles ".", Event.registerAll (bootstrapConfigFor argsBase),
        Event.parseFiles, Event.resolveDependencies, Event.prepareBuildActions,
        Event.openOutFile "/src/out.ninja", Event.newBufWriter 16777216,
        Event.writeBuildFile Sink.bufferedFile, Event.flushBuf, Event.closeOutFile],
       RunResult.returned ["Android.bp.list", "Android.bp"]) := by
  have h := (c8_output_write_sequence argsBase envBase (by decide) rfl rfl rfl rfl rfl
    ⟨["Android.bp"], rfl⟩ rfl rfl rfl rfl rfl rfl).1 rfl rfl rfl rfl rfl
  refine h.trans ?_
  decide
